import Mathlib

/-!
Shallow embedding of the mock ModemManager D-Bus service
(test-environment/mock-dbus/mock_modemmanager.py).

The Python file defines four D-Bus object classes — MockModemManagerService,
MockModem, MockSim, MockBearer — plus module-level state/capability constants.
Methods mutate `self`; here every method is a pure function from the object's
state to its new state (and result).  The GLib timer facility is modelled as an
explicit queue of pending callbacks on the modem (`timers`), and emitted
StateChanged signals are accumulated in an event log (`events`); timer
callbacks fire in the order they were scheduled, matching the delay chains the
mock actually builds.  D-Bus exceptions are modelled with `Except`.
-/

namespace MockMM

/-! ### Module-level constants (lines 34-68 of the source) -/

def DBUS_OBJECT_PATH : String := "/org/freedesktop/ModemManager1"

def MM_MODEM_STATE_FAILED : Int := -1
def MM_MODEM_STATE_UNKNOWN : Int := 0
def MM_MODEM_STATE_INITIALIZING : Int := 1
def MM_MODEM_STATE_LOCKED : Int := 2
def MM_MODEM_STATE_DISABLED : Int := 3
def MM_MODEM_STATE_DISABLING : Int := 4
def MM_MODEM_STATE_ENABLING : Int := 5
def MM_MODEM_STATE_ENABLED : Int := 6
def MM_MODEM_STATE_SEARCHING : Int := 7
def MM_MODEM_STATE_REGISTERED : Int := 8
def MM_MODEM_STATE_DISCONNECTING : Int := 9
def MM_MODEM_STATE_CONNECTING : Int := 10
def MM_MODEM_STATE_CONNECTED : Int := 11

def MM_MODEM_CAPABILITY_NONE : Nat := 0
def MM_MODEM_CAPABILITY_GSM_UMTS : Nat := 4
def MM_MODEM_CAPABILITY_LTE : Nat := 8
def MM_MODEM_CAPABILITY_LTE_ADVANCED : Nat := 16

def MM_MODEM_ACCESS_TECHNOLOGY_LTE : Nat := 16384

/-! ### D-Bus value and error model -/

/-- Wire values returned by property getters: the mock uses signed and
unsigned fixed-width integers, strings, booleans, object paths, arrays and
structs (dbus.Int32, dbus.UInt32, str, bool, dbus.ObjectPath, dbus.Array,
dbus.Struct). -/
inductive DBusValue where
  | int (i : Int)
  | uint (u : Nat)
  | str (s : String)
  | bool (b : Bool)
  | objectPath (p : String)
  | array (vs : List DBusValue)
  | struct (vs : List DBusValue)

/-- A dbus.exceptions.DBusException: a message plus a D-Bus error name. -/
structure DBusException where
  message : String
  name : String
deriving DecidableEq

/-- The error every property getter raises for an unknown property name
(the repeated `raise dbus.exceptions.DBusException(...)` in the source). -/
def propertyNotFound (property_name : String) : DBusException :=
  { message := "Property " ++ property_name ++ " not found"
    name := "org.freedesktop.DBus.Error.InvalidArgs" }

/-- Payload of the Modem.StateChanged D-Bus signal, signature "iiu":
`StateChanged(old, new, reason)` (source lines 254-257). -/
structure StateChangedEvent where
  old : Int
  new : Int
  reason : Nat
deriving DecidableEq

/-- The delayed callbacks the mock schedules with GLib.timeout_add. -/
inductive Callback where
  | finishEnable
  | finishDisable
  | register
  | finishRegister
deriving DecidableEq

/-! ### MockSim (source lines 336-377) -/

structure MockSim where
  object_path : String
  sim_identifier : String
  imsi : String
  operator_identifier : String
  operator_name : String

/-- MockSim.__init__ . -/
def MockSim.init (object_path : String) : MockSim :=
  { object_path := object_path
    sim_identifier := "89012345678901234567"
    imsi := "310260123456789"
    operator_identifier := "310260"
    operator_name := "T-Mobile" }

/-- Sim.SendPin: logged, no state effect. -/
def MockSim.SendPin (s : MockSim) (pin : String) : MockSim := s

/-- Sim.SendPuk: logged, no state effect. -/
def MockSim.SendPuk (s : MockSim) (puk pin : String) : MockSim := s

/-- The property table built inside MockSim.Get. -/
def MockSim.property_map (s : MockSim) : List (String × DBusValue) :=
  [("SimIdentifier", .str s.sim_identifier),
   ("Imsi", .str s.imsi),
   ("OperatorIdentifier", .str s.operator_identifier),
   ("OperatorName", .str s.operator_name)]

/-- Sim.Get: look the name up in the property table, else raise InvalidArgs. -/
def MockSim.Get (s : MockSim) (interface_name property_name : String) :
    Except DBusException DBusValue :=
  match (s.property_map).lookup property_name with
  | some v => .ok v
  | none => .error (propertyNotFound property_name)

/-- The D-Bus methods the MockSim class exposes (its decorated defs). -/
def MockSim.methods : List String := ["SendPin", "SendPuk", "Get"]

/-! ### MockBearer (source lines 380-423) -/

structure MockBearer where
  object_path : String
  properties : List (String × DBusValue)
  connected : Bool
  interface : String
  ip_type : DBusValue
  apn : DBusValue

/-- MockBearer.__init__: `ip-type` defaults to "ipv4", `apn` to "internet". -/
def MockBearer.init (object_path : String) (properties : List (String × DBusValue)) :
    MockBearer :=
  { object_path := object_path
    properties := properties
    connected := false
    interface := "wwan0"
    ip_type := (properties.lookup "ip-type").getD (.str "ipv4")
    apn := (properties.lookup "apn").getD (.str "internet") }

/-- Bearer.Connect: sets connected = true unconditionally. -/
def MockBearer.Connect (b : MockBearer) : MockBearer := { b with connected := true }

/-- Bearer.Disconnect: sets connected = false unconditionally. -/
def MockBearer.Disconnect (b : MockBearer) : MockBearer := { b with connected := false }

/-- The property table built inside MockBearer.Get. -/
def MockBearer.property_map (b : MockBearer) : List (String × DBusValue) :=
  [("Connected", .bool b.connected),
   ("Interface", .str b.interface),
   ("IpType", b.ip_type)]

/-- Bearer.Get: look the name up in the property table, else raise InvalidArgs. -/
def MockBearer.Get (b : MockBearer) (interface_name property_name : String) :
    Except DBusException DBusValue :=
  match (b.property_map).lookup property_name with
  | some v => .ok v
  | none => .error (propertyNotFound property_name)

/-- The D-Bus methods the MockBearer class exposes (its decorated defs). -/
def MockBearer.methods : List String := ["Connect", "Disconnect", "Get"]

/-! ### MockModem (source lines 133-333) -/

structure MockModem where
  object_path : String
  index : Nat
  state : Int
  enabled : Bool
  manufacturer : String
  model : String
  revision : String
  device_identifier : String
  equipment_identifier : String
  own_numbers : List String
  unlock_required : Nat
  power_state : Nat
  supported_capabilities : List Nat
  current_capabilities : Nat
  max_bearers : Nat
  max_active_bearers : Nat
  signal_quality : Nat × Bool
  access_technologies : Nat
  supported_modes : List (Nat × Nat)
  current_modes : Nat × Nat
  supported_bands : List Nat
  current_bands : List Nat
  supported_ip_families : Nat
  sim_path : String
  sim : MockSim
  bearers : List String
  operator_code : String
  operator_name : String
  registration_state : Nat
  /-- Pending GLib.timeout_add callbacks, in scheduling order: (delay ms, callback). -/
  timers : List (Nat × Callback)
  /-- Log of emitted StateChanged signals, oldest first. -/
  events : List StateChangedEvent

/-- Zero-pad a natural to four digits, as Python's f"{index:04d}". -/
def pad4 (n : Nat) : String :=
  let s := toString n
  String.mk (List.replicate (4 - s.length) '0') ++ s

/-- MockModem.__init__ (source lines 136-177). -/
def MockModem.init (object_path : String) (index : Nat) : MockModem :=
  { object_path := object_path
    index := index
    state := MM_MODEM_STATE_DISABLED
    enabled := false
    manufacturer := "MockModem Inc."
    model := "MockModem X1000"
    revision := "1.0.0"
    device_identifier := "mock-" ++ pad4 index
    equipment_identifier := "IMEI" ++ toString (123456789012345 + index)
    own_numbers := ["+1234567890"]
    unlock_required := 1
    power_state := 3
    supported_capabilities := [MM_MODEM_CAPABILITY_GSM_UMTS ||| MM_MODEM_CAPABILITY_LTE]
    current_capabilities := MM_MODEM_CAPABILITY_LTE
    max_bearers := 1
    max_active_bearers := 1
    signal_quality := (75, true)
    access_technologies := MM_MODEM_ACCESS_TECHNOLOGY_LTE
    supported_modes := [(519, 0)]
    current_modes := (519, 0)
    supported_bands := [0, 1, 2, 3]
    current_bands := [0, 1, 2]
    supported_ip_families := 11
    sim_path := object_path ++ "/Sim/0"
    sim := MockSim.init (object_path ++ "/Sim/0")
    bearers := []
    operator_code := "310260"
    operator_name := "T-Mobile"
    registration_state := 1
    timers := []
    events := [] }

/-- MockModem._emit_state_changed (lines 219-222):
`self.StateChanged(self.state, self.state, 1)` — both the `old` and the `new`
slot of the signal are filled with the current (post-assignment) state. -/
def emitStateChanged (m : MockModem) : MockModem :=
  { m with events := m.events ++ [{ old := m.state, new := m.state, reason := 1 }] }

/-- Modem.Enable (lines 179-190): set state to Enabling/Disabling, schedule the
matching completion callback after 1000 ms, set `enabled`, emit. -/
def MockModem.Enable (m : MockModem) (enable : Bool) : MockModem :=
  if enable then
    emitStateChanged { m with
      state := MM_MODEM_STATE_ENABLING
      timers := m.timers ++ [(1000, Callback.finishEnable)]
      enabled := true }
  else
    emitStateChanged { m with
      state := MM_MODEM_STATE_DISABLING
      timers := m.timers ++ [(1000, Callback.finishDisable)]
      enabled := false }

/-- Runs one scheduled callback body (_finish_enable, _finish_disable,
_register, _finish_register, lines 192-217). -/
def runCallback (m : MockModem) : Callback → MockModem
  | .finishEnable =>
      let m := emitStateChanged { m with state := MM_MODEM_STATE_ENABLED }
      { m with timers := m.timers ++ [(500, Callback.register)] }
  | .finishDisable =>
      emitStateChanged { m with state := MM_MODEM_STATE_DISABLED }
  | .register =>
      let m := emitStateChanged { m with state := MM_MODEM_STATE_SEARCHING }
      { m with timers := m.timers ++ [(1000, Callback.finishRegister)] }
  | .finishRegister =>
      emitStateChanged { m with state := MM_MODEM_STATE_REGISTERED }

/-- Fires the oldest pending timer callback (each callback returns False, so
GLib removes it from the source list before its body's new timeouts fire). -/
def fireNext (m : MockModem) : MockModem :=
  match m.timers with
  | [] => m
  | t :: rest => runCallback { m with timers := rest } t.2

/-- Modem.CreateBearer (lines 224-232): name the bearer after the current
length of `bearers`, construct it, append its path, return the path. -/
def MockModem.CreateBearer (m : MockModem) (properties : List (String × DBusValue)) :
    String × MockBearer × MockModem :=
  let bearer_index := m.bearers.length
  let bearer_path := m.object_path ++ "/Bearer/" ++ toString bearer_index
  let bearer := MockBearer.init bearer_path properties
  (bearer_path, bearer, { m with bearers := m.bearers ++ [bearer_path] })

/-- Modem.DeleteBearer (lines 234-239): remove the first occurrence of the
path if present, silently do nothing otherwise. -/
def MockModem.DeleteBearer (m : MockModem) (bearer_path : String) : MockModem :=
  if bearer_path ∈ m.bearers then
    { m with bearers := m.bearers.erase bearer_path }
  else m

/-- Modem.Reset (lines 241-246): force state = Disabled and emit, touching
neither `enabled` nor any pending timer. -/
def MockModem.Reset (m : MockModem) : MockModem :=
  emitStateChanged { m with state := MM_MODEM_STATE_DISABLED }

/-- Modem.Command (lines 248-252): always returns "OK", no state effect. -/
def MockModem.Command (m : MockModem) (cmd : String) : String := "OK"

/-- The property table built inside MockModem.Get (lines 264-310). -/
def MockModem.property_map (m : MockModem) : List (String × DBusValue) :=
  [("State", .int m.state),
   ("Manufacturer", .str m.manufacturer),
   ("Model", .str m.model),
   ("Revision", .str m.revision),
   ("DeviceIdentifier", .str m.device_identifier),
   ("EquipmentIdentifier", .str m.equipment_identifier),
   ("Device", .str "/sys/devices/mock"),
   ("Drivers", .array [.str "mock_driver"]),
   ("Plugin", .str "Mock"),
   ("PrimaryPort", .str "ttyUSB0"),
   ("Ports", .array [.struct [.str "ttyUSB0", .uint 1], .struct [.str "ttyUSB1", .uint 2]]),
   ("Sim", .objectPath m.sim_path),
   ("Bearers", .array (m.bearers.map .objectPath)),
   ("SupportedCapabilities", .array (m.supported_capabilities.map .uint)),
   ("CurrentCapabilities", .uint m.current_capabilities),
   ("MaxBearers", .uint m.max_bearers),
   ("MaxActiveBearers", .uint m.max_active_bearers),
   ("OwnNumbers", .array (m.own_numbers.map .str)),
   ("UnlockRequired", .uint m.unlock_required),
   ("PowerState", .uint m.power_state),
   ("SignalQuality", .struct [.uint m.signal_quality.1, .bool m.signal_quality.2]),
   ("AccessTechnologies", .uint m.access_technologies),
   ("SupportedModes", .array (m.supported_modes.map fun p => .struct [.uint p.1, .uint p.2])),
   ("CurrentModes", .struct [.uint m.current_modes.1, .uint m.current_modes.2]),
   ("SupportedBands", .array (m.supported_bands.map .uint)),
   ("CurrentBands", .array (m.current_bands.map .uint)),
   ("SupportedIpFamilies", .uint m.supported_ip_families)]

/-- Modem.Get (lines 259-318): look the name up in the table, else raise
InvalidArgs. -/
def MockModem.Get (m : MockModem) (interface_name property_name : String) :
    Except DBusException DBusValue :=
  match (m.property_map).lookup property_name with
  | some v => .ok v
  | none => .error (propertyNotFound property_name)

/-- Modem.GetAll (lines 320-333): a fixed six-key snapshot. -/
def MockModem.GetAll (m : MockModem) (interface_name : String) :
    List (String × DBusValue) :=
  [("State", .int m.state),
   ("Manufacturer", .str m.manufacturer),
   ("Model", .str m.model),
   ("Revision", .str m.revision),
   ("DeviceIdentifier", .str m.device_identifier),
   ("EquipmentIdentifier", .str m.equipment_identifier)]

/-- The D-Bus methods the MockModem class exposes (its decorated defs;
StateChanged is a signal, not a method). -/
def MockModem.methods : List String :=
  ["Enable", "CreateBearer", "DeleteBearer", "Reset", "Command", "Get", "GetAll"]

/-! ### MockModemManagerService (source lines 71-130) -/

structure MockModemManagerService where
  modems : List String
  version : String

/-- MockModemManagerService.__init__ plus _create_mock_modem: one modem path
is registered; the modem object itself lives on the bus. -/
def MockModemManagerService.init : MockModemManagerService :=
  { modems := [DBUS_OBJECT_PATH ++ "/Modem/0"]
    version := "1.12.8-mock" }

/-- Manager GetVersion (lines 90-94). -/
def MockModemManagerService.GetVersion (s : MockModemManagerService) : String :=
  s.version

/-- Manager Get (lines 115-124): only "Version" is answered; everything else
raises InvalidArgs. -/
def MockModemManagerService.Get (s : MockModemManagerService)
    (interface_name property_name : String) : Except DBusException DBusValue :=
  if property_name = "Version" then .ok (.str s.version)
  else .error (propertyNotFound property_name)

/-- Manager GetAll (lines 126-130). -/
def MockModemManagerService.GetAll (s : MockModemManagerService)
    (interface_name : String) : List (String × DBusValue) :=
  [("Version", .str s.version)]

/-- The D-Bus methods the manager service class exposes (its decorated defs). -/
def MockModemManagerService.methods : List String :=
  ["GetVersion", "ScanDevices", "SetLogging", "InhibitDevice", "Get", "GetAll"]

/-! ### Derived notions used by the claims -/

/-- The modem object the service creates at startup. -/
def modemInit : MockModem := MockModem.init (DBUS_OBJECT_PATH ++ "/Modem/0") 0

/-- The enabled-family states of the spec's invariant: Enabling, Enabled,
Searching, Registered, Disconnecting, Connecting, Connected. -/
def enabledStates : List Int :=
  [MM_MODEM_STATE_ENABLING, MM_MODEM_STATE_ENABLED, MM_MODEM_STATE_SEARCHING,
   MM_MODEM_STATE_REGISTERED, MM_MODEM_STATE_DISCONNECTING,
   MM_MODEM_STATE_CONNECTING, MM_MODEM_STATE_CONNECTED]

/-- The spec's claimed invariant: `enabled` is true exactly when the state is
in the enabled family. -/
def enabledStateInv (m : MockModem) : Prop :=
  m.enabled = true ↔ m.state ∈ enabledStates

instance (m : MockModem) : Decidable (enabledStateInv m) := by
  unfold enabledStateInv; infer_instance

/-- A modem state reachable from `modemInit` by three CreateBearer calls,
deletion of the first two bearer paths, and one more CreateBearer: its
`bearers` list is [".../Bearer/2", ".../Bearer/1"], so the next CreateBearer
returns ".../Bearer/2", a path that sits in the middle of the list. -/
def c7_before : MockModem :=
  (((((((modemInit.CreateBearer []).2.2.CreateBearer []).2.2.CreateBearer
      []).2.2.DeleteBearer
        (DBUS_OBJECT_PATH ++ "/Modem/0/Bearer/0")).DeleteBearer
          (DBUS_OBJECT_PATH ++ "/Modem/0/Bearer/1")).CreateBearer []).2.2)

/-! ## Claims -/

/-- Claim C1: from a Disabled modem with no pending timers, Enable(true)
followed by the three scheduled callbacks firing in order ends in Registered,
having emitted exactly four StateChanged events whose new-state values are, in
order, Enabling, Enabled, Searching, Registered. -/
theorem C1_enable_true_reaches_registered (m : MockMM.MockModem)
    (hs : m.state = MockMM.MM_MODEM_STATE_DISABLED)
    (ht : m.timers = []) :
    (MockMM.fireNext (MockMM.fireNext (MockMM.fireNext (m.Enable true)))).state =
      MockMM.MM_MODEM_STATE_REGISTERED ∧
    (MockMM.fireNext (MockMM.fireNext (MockMM.fireNext (m.Enable true)))).events =
      m.events ++
        [⟨MockMM.MM_MODEM_STATE_ENABLING, MockMM.MM_MODEM_STATE_ENABLING, 1⟩,
         ⟨MockMM.MM_MODEM_STATE_ENABLED, MockMM.MM_MODEM_STATE_ENABLED, 1⟩,
         ⟨MockMM.MM_MODEM_STATE_SEARCHING, MockMM.MM_MODEM_STATE_SEARCHING, 1⟩,
         ⟨MockMM.MM_MODEM_STATE_REGISTERED, MockMM.MM_MODEM_STATE_REGISTERED, 1⟩] ∧
    ((MockMM.fireNext (MockMM.fireNext (MockMM.fireNext (m.Enable true)))).events.drop
        m.events.length).map MockMM.StateChangedEvent.new =
      [MockMM.MM_MODEM_STATE_ENABLING, MockMM.MM_MODEM_STATE_ENABLED,
       MockMM.MM_MODEM_STATE_SEARCHING, MockMM.MM_MODEM_STATE_REGISTERED] := by
  refine ⟨?_, ?_, ?_⟩ <;>
    simp [MockMM.MockModem.Enable, MockMM.emitStateChanged, MockMM.fireNext,
      MockMM.runCallback, ht, List.append_assoc]

/-- Witness for C1 at the modem the service constructs. -/
theorem C1_enable_true_reaches_registered_witness :
    (MockMM.fireNext (MockMM.fireNext (MockMM.fireNext (MockMM.modemInit.Enable true)))).state =
      MockMM.MM_MODEM_STATE_REGISTERED ∧
    (MockMM.fireNext (MockMM.fireNext (MockMM.fireNext (MockMM.modemInit.Enable true)))).events =
      MockMM.modemInit.events ++
        [⟨MockMM.MM_MODEM_STATE_ENABLING, MockMM.MM_MODEM_STATE_ENABLING, 1⟩,
         ⟨MockMM.MM_MODEM_STATE_ENABLED, MockMM.MM_MODEM_STATE_ENABLED, 1⟩,
         ⟨MockMM.MM_MODEM_STATE_SEARCHING, MockMM.MM_MODEM_STATE_SEARCHING, 1⟩,
         ⟨MockMM.MM_MODEM_STATE_REGISTERED, MockMM.MM_MODEM_STATE_REGISTERED, 1⟩] ∧
    ((MockMM.fireNext (MockMM.fireNext (MockMM.fireNext (MockMM.modemInit.Enable true)))).events.drop
        MockMM.modemInit.events.length).map MockMM.StateChangedEvent.new =
      [MockMM.MM_MODEM_STATE_ENABLING, MockMM.MM_MODEM_STATE_ENABLED,
       MockMM.MM_MODEM_STATE_SEARCHING, MockMM.MM_MODEM_STATE_REGISTERED] :=
  C1_enable_true_reaches_registered MockMM.modemInit rfl rfl

/-- Claim C2 (code bug): the StateChanged emission is supposed to carry the
pre-transition state in its `old` slot, but `_emit_state_changed` passes
`self.state` twice, so from Disabled, Enable(true) emits (Enabling, Enabling, 1)
instead of (Disabled, Enabling, 1). -/
theorem C2_emit_passes_new_state_as_old :
    MockMM.modemInit.state = MockMM.MM_MODEM_STATE_DISABLED ∧
    (MockMM.modemInit.Enable true).events =
      [⟨MockMM.MM_MODEM_STATE_ENABLING, MockMM.MM_MODEM_STATE_ENABLING, 1⟩] ∧
    MockMM.MM_MODEM_STATE_ENABLING ≠ MockMM.MM_MODEM_STATE_DISABLED := by
  refine ⟨rfl, rfl, by decide⟩

/-- Claim C8: Reset() forces state = Disabled for every modem regardless of
its current state and pending timers, appends exactly one StateChanged event,
and schedules no callback (timers unchanged). -/
theorem C8_reset_is_synchronous (m : MockMM.MockModem) :
    (m.Reset).state = MockMM.MM_MODEM_STATE_DISABLED ∧
    (m.Reset).events =
      m.events ++ [⟨MockMM.MM_MODEM_STATE_DISABLED, MockMM.MM_MODEM_STATE_DISABLED, 1⟩] ∧
    (m.Reset).timers = m.timers := by
  refine ⟨rfl, rfl, rfl⟩

/-- Claim C9: the enable-completion callback scheduled by Enable(true) survives
Reset(): Reset leaves the timer queue untouched, and firing the pending
callback afterwards overwrites Disabled with Enabled and emits; moreover no
modem operation removes a previously scheduled timer (Enable only appends;
Reset, CreateBearer and DeleteBearer leave the queue unchanged). -/
theorem C9_pending_timers_survive_reset (m : MockMM.MockModem)
    (ht : m.timers = []) :
    ((m.Enable true).Reset).state = MockMM.MM_MODEM_STATE_DISABLED ∧
    ((m.Enable true).Reset).timers = [(1000, MockMM.Callback.finishEnable)] ∧
    (MockMM.fireNext ((m.Enable true).Reset)).state = MockMM.MM_MODEM_STATE_ENABLED ∧
    (MockMM.fireNext ((m.Enable true).Reset)).events =
      ((m.Enable true).Reset).events ++
        [⟨MockMM.MM_MODEM_STATE_ENABLED, MockMM.MM_MODEM_STATE_ENABLED, 1⟩] ∧
    (∀ (x : MockMM.MockModem) (b : Bool), ∃ t, (x.Enable b).timers = x.timers ++ [t]) ∧
    (∀ x : MockMM.MockModem, (x.Reset).timers = x.timers) ∧
    (∀ (x : MockMM.MockModem) (props : List (String × MockMM.DBusValue)),
      ((x.CreateBearer props).2.2).timers = x.timers) ∧
    (∀ (x : MockMM.MockModem) (p : String), (x.DeleteBearer p).timers = x.timers) := by
  refine ⟨?_, ?_, ?_, ?_, ?_, ?_, ?_, ?_⟩
  · rfl
  · simp [MockMM.MockModem.Enable, MockMM.MockModem.Reset, MockMM.emitStateChanged, ht]
  · simp [MockMM.MockModem.Enable, MockMM.MockModem.Reset, MockMM.emitStateChanged,
      MockMM.fireNext, MockMM.runCallback, ht]
  · simp [MockMM.MockModem.Enable, MockMM.MockModem.Reset, MockMM.emitStateChanged,
      MockMM.fireNext, MockMM.runCallback, ht, List.append_assoc]
  · intro x b
    cases b <;> exact ⟨_, rfl⟩
  · intro x
    rfl
  · intro x props
    rfl
  · intro x p
    by_cases h : p ∈ x.bearers <;> simp [MockMM.MockModem.DeleteBearer, h]

/-- Witness for C9 at the modem the service constructs. -/
theorem C9_pending_timers_survive_reset_witness :
    ((MockMM.modemInit.Enable true).Reset).state = MockMM.MM_MODEM_STATE_DISABLED ∧
    ((MockMM.modemInit.Enable true).Reset).timers = [(1000, MockMM.Callback.finishEnable)] ∧
    (MockMM.fireNext ((MockMM.modemInit.Enable true).Reset)).state =
      MockMM.MM_MODEM_STATE_ENABLED ∧
    (MockMM.fireNext ((MockMM.modemInit.Enable true).Reset)).events =
      ((MockMM.modemInit.Enable true).Reset).events ++
        [⟨MockMM.MM_MODEM_STATE_ENABLED, MockMM.MM_MODEM_STATE_ENABLED, 1⟩] ∧
    (∀ (x : MockMM.MockModem) (b : Bool), ∃ t, (x.Enable b).timers = x.timers ++ [t]) ∧
    (∀ x : MockMM.MockModem, (x.Reset).timers = x.timers) ∧
    (∀ (x : MockMM.MockModem) (props : List (String × MockMM.DBusValue)),
      ((x.CreateBearer props).2.2).timers = x.timers) ∧
    (∀ (x : MockMM.MockModem) (p : String), (x.DeleteBearer p).timers = x.timers) :=
  C9_pending_timers_survive_reset MockMM.modemInit rfl

/-- Counterexample for claim C3: the enabled-iff-state invariant holds after
Enable(true), but Reset() breaks it — Reset forces state = Disabled while
leaving `enabled` = true. -/
theorem C3_reset_breaks_invariant_cex :
    MockMM.enabledStateInv (MockMM.modemInit.Enable true) ∧
    ¬ MockMM.enabledStateInv ((MockMM.modemInit.Enable true).Reset) := by
  refine ⟨by decide, by decide⟩

/-- Claim C3 as amended: the invariant holds in the initial state and after
every Enable call (for both argument values); Reset is excluded, since it sets
state = Disabled without clearing `enabled`. -/
theorem C3_invariant_initial_and_enable :
    MockMM.enabledStateInv MockMM.modemInit ∧
    (∀ (m : MockMM.MockModem) (b : Bool), MockMM.enabledStateInv (m.Enable b)) := by
  refine ⟨by decide, ?_⟩
  intro m b
  cases b <;>
    simp [MockMM.enabledStateInv, MockMM.MockModem.Enable, MockMM.emitStateChanged,
      MockMM.enabledStates, MM_MODEM_STATE_ENABLING, MM_MODEM_STATE_DISABLING,
      MM_MODEM_STATE_ENABLED, MM_MODEM_STATE_SEARCHING, MM_MODEM_STATE_REGISTERED,
      MM_MODEM_STATE_DISCONNECTING, MM_MODEM_STATE_CONNECTING, MM_MODEM_STATE_CONNECTED]

/-- Counterexample for claim C4: CreateBearer enforces nothing, so two
consecutive calls on the freshly constructed modem leave two bearers while
max_active_bearers is 1. -/
theorem C4_two_creates_exceed_max_cex :
    (((MockMM.modemInit.CreateBearer []).2.2.CreateBearer []).2.2).bearers.length = 2 ∧
    (((MockMM.modemInit.CreateBearer []).2.2.CreateBearer []).2.2).max_active_bearers = 1 ∧
    ¬ ((((MockMM.modemInit.CreateBearer []).2.2.CreateBearer []).2.2).bearers.length ≤
        (((MockMM.modemInit.CreateBearer []).2.2.CreateBearer []).2.2).max_active_bearers) := by
  refine ⟨rfl, rfl, by decide⟩

/-- Claim C4 as amended: the bound holds initially and is preserved by
DeleteBearer, but CreateBearer unconditionally grows `bearers` by one, so a
sequence of CreateBearer calls can exceed max_active_bearers. -/
theorem C4_bearer_bound_initial_and_delete (m : MockMM.MockModem) (p : String)
    (props : List (String × MockMM.DBusValue))
    (h : m.bearers.length ≤ m.max_active_bearers) :
    MockMM.modemInit.bearers.length ≤ MockMM.modemInit.max_active_bearers ∧
    (m.DeleteBearer p).bearers.length ≤ (m.DeleteBearer p).max_active_bearers ∧
    ((m.CreateBearer props).2.2).bearers.length = m.bearers.length + 1 := by
  refine ⟨by decide, ?_, by simp [MockMM.MockModem.CreateBearer]⟩
  by_cases hp : p ∈ m.bearers
  · simp only [MockMM.MockModem.DeleteBearer, if_pos hp]
    exact le_trans ((m.bearers.erase_sublist p).length_le) h
  · simp only [MockMM.MockModem.DeleteBearer, if_neg hp]
    exact h

/-- Witness for the amended C4 at the modem the service constructs. -/
theorem C4_bearer_bound_initial_and_delete_witness :
    MockMM.modemInit.bearers.length ≤ MockMM.modemInit.max_active_bearers ∧
    (MockMM.modemInit.DeleteBearer "x").bearers.length ≤
      (MockMM.modemInit.DeleteBearer "x").max_active_bearers ∧
    ((MockMM.modemInit.CreateBearer []).2.2).bearers.length =
      MockMM.modemInit.bearers.length + 1 :=
  C4_bearer_bound_initial_and_delete MockMM.modemInit "x" [] (by decide)

/-- Claim C10: CreateBearer names the new bearer after the current length of
`bearers`; consequently, after CreateBearer, CreateBearer, DeleteBearer of the
first returned reference, the next CreateBearer returns a reference that is
already present in `bearers`. -/
theorem C10_bearer_references_not_unique :
    (∀ (m : MockMM.MockModem) (props : List (String × MockMM.DBusValue)),
      (m.CreateBearer props).1 = m.object_path ++ "/Bearer/" ++ toString m.bearers.length) ∧
    ((((MockMM.modemInit.CreateBearer []).2.2.CreateBearer []).2.2.DeleteBearer
        (MockMM.modemInit.CreateBearer []).1).CreateBearer []).1 ∈
      (((MockMM.modemInit.CreateBearer []).2.2.CreateBearer []).2.2.DeleteBearer
        (MockMM.modemInit.CreateBearer []).1).bearers := by
  refine ⟨fun m props => rfl, by decide⟩

/-- Counterexample for claim C5: the MockSim and MockBearer classes expose no
GetAll method at all, so GetAll is not total over the four object types. -/
theorem C5_sim_bearer_lack_getall_cex :
    "GetAll" ∉ MockMM.MockSim.methods ∧ "GetAll" ∉ MockMM.MockBearer.methods := by
  decide

/-- Claim C5 as amended: GetAll is exposed only by the Manager and the Modem;
for those two it never fails and always returns a non-empty mapping, while
Sim and Bearer expose no GetAll method. -/
theorem C5_getall_total_for_manager_and_modem :
    (∀ (s : MockMM.MockModemManagerService) (iface : String), s.GetAll iface ≠ []) ∧
    (∀ (m : MockMM.MockModem) (iface : String), m.GetAll iface ≠ []) ∧
    "GetAll" ∈ MockMM.MockModemManagerService.methods ∧
    "GetAll" ∈ MockMM.MockModem.methods ∧
    "GetAll" ∉ MockMM.MockSim.methods ∧
    "GetAll" ∉ MockMM.MockBearer.methods := by
  refine ⟨?_, ?_, by decide, by decide, by decide, by decide⟩
  · intro s iface
    simp [MockMM.MockModemManagerService.GetAll]
  · intro m iface
    simp [MockMM.MockModem.GetAll]

/-- Claim C6: for each of the four object types, Get answers a known property
name with its current table value and fails on an unknown name with the
InvalidArgs-kind error whose message carries the offending name. -/
theorem C6_get_contract (mgr : MockMM.MockModemManagerService) (m : MockMM.MockModem)
    (s : MockMM.MockSim) (b : MockMM.MockBearer) (iface p : String) :
    (p = "Version" → mgr.Get iface p = .ok (.str mgr.version)) ∧
    (p ≠ "Version" → mgr.Get iface p = .error (MockMM.propertyNotFound p)) ∧
    (∀ v, (m.property_map).lookup p = some v → m.Get iface p = .ok v) ∧
    ((m.property_map).lookup p = none → m.Get iface p = .error (MockMM.propertyNotFound p)) ∧
    (∀ v, (s.property_map).lookup p = some v → s.Get iface p = .ok v) ∧
    ((s.property_map).lookup p = none → s.Get iface p = .error (MockMM.propertyNotFound p)) ∧
    (∀ v, (b.property_map).lookup p = some v → b.Get iface p = .ok v) ∧
    ((b.property_map).lookup p = none → b.Get iface p = .error (MockMM.propertyNotFound p)) ∧
    (MockMM.propertyNotFound p).message = "Property " ++ p ++ " not found" ∧
    (MockMM.propertyNotFound p).name = "org.freedesktop.DBus.Error.InvalidArgs" := by
  refine ⟨?_, ?_, ?_, ?_, ?_, ?_, ?_, ?_, rfl, rfl⟩
  · intro h
    simp [MockMM.MockModemManagerService.Get, h]
  · intro h
    simp [MockMM.MockModemManagerService.Get, h]
  · intro v hv
    simp [MockMM.MockModem.Get, hv]
  · intro hv
    simp [MockMM.MockModem.Get, hv]
  · intro v hv
    simp [MockMM.MockSim.Get, hv]
  · intro hv
    simp [MockMM.MockSim.Get, hv]
  · intro v hv
    simp [MockMM.MockBearer.Get, hv]
  · intro hv
    simp [MockMM.MockBearer.Get, hv]

/-- Witness for C6: concrete lookups on the objects the service constructs —
a known name succeeds, an unknown name fails with the InvalidArgs error. -/
theorem C6_get_contract_witness :
    MockMM.MockModemManagerService.init.Get "i" "Version" =
      .ok (.str MockMM.MockModemManagerService.init.version) ∧
    MockMM.MockModemManagerService.init.Get "i" "Bogus" =
      .error (MockMM.propertyNotFound "Bogus") ∧
    MockMM.modemInit.Get "i" "State" = .ok (.int MockMM.modemInit.state) ∧
    MockMM.modemInit.Get "i" "Bogus" = .error (MockMM.propertyNotFound "Bogus") ∧
    MockMM.modemInit.sim.Get "i" "Imsi" = .ok (.str MockMM.modemInit.sim.imsi) ∧
    MockMM.modemInit.sim.Get "i" "Bogus" = .error (MockMM.propertyNotFound "Bogus") ∧
    (MockMM.MockBearer.init "p" []).Get "i" "Connected" =
      .ok (.bool (MockMM.MockBearer.init "p" []).connected) ∧
    (MockMM.MockBearer.init "p" []).Get "i" "Bogus" =
      .error (MockMM.propertyNotFound "Bogus") :=
  ⟨(C6_get_contract MockMM.MockModemManagerService.init MockMM.modemInit
      MockMM.modemInit.sim (MockMM.MockBearer.init "p" []) "i" "Version").1 rfl,
   (C6_get_contract MockMM.MockModemManagerService.init MockMM.modemInit
      MockMM.modemInit.sim (MockMM.MockBearer.init "p" []) "i" "Bogus").2.1 (by decide),
   (C6_get_contract MockMM.MockModemManagerService.init MockMM.modemInit
      MockMM.modemInit.sim (MockMM.MockBearer.init "p" []) "i" "State").2.2.1 _ rfl,
   (C6_get_contract MockMM.MockModemManagerService.init MockMM.modemInit
      MockMM.modemInit.sim (MockMM.MockBearer.init "p" []) "i" "Bogus").2.2.2.1 rfl,
   (C6_get_contract MockMM.MockModemManagerService.init MockMM.modemInit
      MockMM.modemInit.sim (MockMM.MockBearer.init "p" []) "i" "Imsi").2.2.2.2.1 _ rfl,
   (C6_get_contract MockMM.MockModemManagerService.init MockMM.modemInit
      MockMM.modemInit.sim (MockMM.MockBearer.init "p" []) "i" "Bogus").2.2.2.2.2.1 rfl,
   (C6_get_contract MockMM.MockModemManagerService.init MockMM.modemInit
      MockMM.modemInit.sim (MockMM.MockBearer.init "p" []) "i" "Connected").2.2.2.2.2.2.1 _ rfl,
   (C6_get_contract MockMM.MockModemManagerService.init MockMM.modemInit
      MockMM.modemInit.sim (MockMM.MockBearer.init "p" []) "i" "Bogus").2.2.2.2.2.2.2.1 rfl⟩

/-- Counterexample for claim C7: from the reachable state `c7_before` (bearers
[".../Bearer/2", ".../Bearer/1"]), CreateBearer returns ".../Bearer/2", which
is already present; DeleteBearer of that reference removes the first
occurrence, so the pair reorders `bearers` instead of restoring it. -/
theorem C7_create_delete_not_inverse_cex :
    (((MockMM.c7_before.CreateBearer []).2.2).DeleteBearer
        (MockMM.c7_before.CreateBearer []).1).bearers ≠ MockMM.c7_before.bearers := by
  decide

/-- Claim C7 as amended: when the reference CreateBearer returns is not
already in `bearers` — in particular whenever `bearers` starts empty —
CreateBearer followed by DeleteBearer of that reference restores `bearers`
exactly; and DeleteBearer of an absent reference leaves the modem entirely
unchanged (and, being total, cannot raise). -/
theorem C7_create_delete_roundtrip (m : MockMM.MockModem)
    (props : List (String × MockMM.DBusValue)) (r : String)
    (hnew : (m.CreateBearer props).1 ∉ m.bearers)
    (habsent : r ∉ m.bearers) :
    (((m.CreateBearer props).2.2).DeleteBearer (m.CreateBearer props).1).bearers =
      m.bearers ∧
    m.DeleteBearer r = m := by
  constructor
  · have hmem : (m.CreateBearer props).1 ∈ ((m.CreateBearer props).2.2).bearers := by
      simp [MockMM.MockModem.CreateBearer]
    simp only [MockMM.MockModem.DeleteBearer, if_pos hmem]
    show (m.bearers ++ [(m.CreateBearer props).1]).erase (m.CreateBearer props).1 = m.bearers
    rw [List.erase_append_right _ hnew, List.erase_cons_head, List.append_nil]
  · simp [MockMM.MockModem.DeleteBearer, habsent]

/-- Witness for the amended C7 on the freshly constructed modem, whose
`bearers` list is empty. -/
theorem C7_create_delete_roundtrip_witness :
    (((MockMM.modemInit.CreateBearer []).2.2).DeleteBearer
        (MockMM.modemInit.CreateBearer []).1).bearers = MockMM.modemInit.bearers ∧
    MockMM.modemInit.DeleteBearer "absent" = MockMM.modemInit :=
  C7_create_delete_roundtrip MockMM.modemInit [] "absent" (by decide) (by decide)

end MockMM
